import Mathlib

/-! Verification of the Flipper-AC application core (src/ac_app.c).

The C file is a timer-driven state machine over five globals:
`ac_is_on`, `next_signal_interval`, `remaining_time`, `sequence_state`,
and three one-shot FuriTimers (`signal_timer`, `countdown_timer`,
`sequence_timer`).  We model the globals plus the armed-interval of each
timer as one state record; each timer callback becomes a pure function
from state to (new state, list of infrared messages transmitted during
the call).  A one-shot timer firing is modelled by first clearing the
armed interval (the timer has expired) and then running its callback,
which may re-arm it.
-/

namespace AcApp

/-- Timing constants (src/ac_app.c lines 8-11). -/
def one_second_interval : Nat := 1000

def one_minute_interval : Nat := 60000

def one_hour_interval : Nat := 3600000

def three_hour_interval : Nat := 10800000

/-- Status strings (src/ac_app.c lines 14-15). -/
def ac_on_text : String := "The A/C should be on."

def ac_off_text : String := "The A/C should be off."

/-- Infrared constants (src/ac_app.c lines 21-23). -/
def ir_address_1 : Nat := 0x00006F98

def ir_command_1 : Nat := 0x0000E619

def ir_command_2 : Nat := 0x0000F708

/-- The only protocol tag the app ever uses (InfraredProtocolNECext). -/
inductive InfraredProtocol
  | NECext
  deriving DecidableEq

/-- The InfraredMessage struct passed to the transmission service. -/
structure InfraredMessage where
  protocol : InfraredProtocol
  address : Nat
  command : Nat
  deriving DecidableEq

/-- `send_ir_signal` builds one extended-NEC message from an address and a
command; the physical transmission is an opaque external service, so the
model records the message that would be handed to it. -/
def send_ir_signal (address command : Nat) : InfraredMessage :=
  { protocol := InfraredProtocol.NECext, address := address, command := command }

/-- The turn-on sequence state machine (src/ac_app.c lines 26-30). -/
inductive AcSequenceState
  | AcSequenceIdle
  | AcSequenceTurnOnStep1
  | AcSequenceTurnOnStep2
  deriving DecidableEq

open AcSequenceState

/-- The mutable globals of ac_app.c, plus the armed interval (in ms) of
each of the three one-shot timers (`none` = not armed / expired). -/
structure AcState where
  ac_is_on : Bool
  next_signal_interval : Nat
  remaining_time : Nat
  sequence_state : AcSequenceState
  signal_timer : Option Nat
  countdown_timer : Option Nat
  sequence_timer : Option Nat
  deriving DecidableEq

/-- `sequence_step_callback` (src/ac_app.c lines 84-105): advances the
turn-on sequence.  At TurnOnStep1 it sends the first Mode code and re-arms
the sequence timer; at TurnOnStep2 it sends the second Mode code, returns
to Idle, flips the device state to on, resets interval and countdown to
one hour and re-arms the signal timer; at Idle neither branch runs. -/
def sequence_step_callback (s : AcState) : AcState × List InfraredMessage :=
  match s.sequence_state with
  | AcSequenceTurnOnStep1 =>
      ({ s with
          sequence_state := AcSequenceTurnOnStep2,
          sequence_timer := some one_second_interval },
       [send_ir_signal ir_address_1 ir_command_2])
  | AcSequenceTurnOnStep2 =>
      ({ s with
          sequence_state := AcSequenceIdle,
          ac_is_on := true,
          next_signal_interval := one_hour_interval,
          remaining_time := one_hour_interval,
          signal_timer := some one_hour_interval },
       [send_ir_signal ir_address_1 ir_command_2])
  | AcSequenceIdle => (s, [])

/-- `send_signals_and_update_text` (src/ac_app.c lines 108-133): the
schedule tick.  If the A/C is believed on, send the Power code, mark it
off, set interval and countdown to three hours and re-arm the signal
timer; otherwise send the Power code, enter TurnOnStep1 and arm the
sequence timer for one second. -/
def send_signals_and_update_text (s : AcState) : AcState × List InfraredMessage :=
  if s.ac_is_on then
    ({ s with
        ac_is_on := false,
        next_signal_interval := three_hour_interval,
        remaining_time := three_hour_interval,
        signal_timer := some three_hour_interval },
     [send_ir_signal ir_address_1 ir_command_1])
  else
    ({ s with
        sequence_state := AcSequenceTurnOnStep1,
        sequence_timer := some one_second_interval },
     [send_ir_signal ir_address_1 ir_command_1])

/-- `update_countdown` (src/ac_app.c lines 136-160): subtracts one minute
from the remaining time when at least a minute is left, otherwise clamps
it to zero, and re-arms the countdown timer for another minute. -/
def update_countdown (s : AcState) : AcState × List InfraredMessage :=
  ({ s with
      remaining_time :=
        if s.remaining_time ≥ one_minute_interval then
          s.remaining_time - one_minute_interval
        else 0,
      countdown_timer := some one_minute_interval },
   [])

/-- The countdown line built by `ac_app_render_callback`
(src/ac_app.c lines 49-59). -/
def countdown_text (remaining_time : Nat) : String :=
  let remaining_minutes := remaining_time / one_minute_interval
  if remaining_minutes = 0 then
    ("Sending signal soon...")
  else if remaining_minutes = 1 then
    ("Next signal in 1 min.")
  else
    ("Next signal in " ++ toString remaining_minutes ++ " mins.")

/-- `ac_app_render_callback` (src/ac_app.c lines 40-63): the two strings
drawn on screen, as determined by the current state. -/
def ac_app_render_callback (s : AcState) : String × String :=
  ((if s.ac_is_on then ac_on_text else ac_off_text), countdown_text s.remaining_time)

/-- The global initial values (src/ac_app.c lines 16-18 and 32): device
believed off, interval and countdown one hour, sequencer idle, no timer
armed yet. -/
def state0 : AcState :=
  { ac_is_on := false,
    next_signal_interval := one_hour_interval,
    remaining_time := one_hour_interval,
    sequence_state := AcSequenceIdle,
    signal_timer := none,
    countdown_timer := none,
    sequence_timer := none }

/-- The state right after `ac_app_app` starts (src/ac_app.c lines 193-197):
`send_signals_and_update_text` is invoked once directly and then the
countdown timer is started for one minute. -/
def ac_app_start : AcState :=
  { (send_signals_and_update_text state0).1 with
      countdown_timer := some one_minute_interval }

/-- A firing of the one-shot signal timer: the timer expires, then its
callback runs. -/
def fire_signal_timer (s : AcState) : AcState × List InfraredMessage :=
  send_signals_and_update_text { s with signal_timer := none }

/-- A firing of the one-shot sequence timer. -/
def fire_sequence_timer (s : AcState) : AcState × List InfraredMessage :=
  sequence_step_callback { s with sequence_timer := none }

/-- A firing of the one-shot countdown timer. -/
def fire_countdown_timer (s : AcState) : AcState × List InfraredMessage :=
  update_countdown { s with countdown_timer := none }

/-- States reachable in a real execution: from the post-startup state, a
timer callback can fire only while that timer is armed (FuriTimerTypeOnce
timers fire at most once per start). -/
inductive ReachableRun : AcState → Prop
  | start : ReachableRun ac_app_start
  | signal_fires {s : AcState} {i : Nat} :
      ReachableRun s → s.signal_timer = some i →
      ReachableRun (fire_signal_timer s).1
  | sequence_fires {s : AcState} {i : Nat} :
      ReachableRun s → s.sequence_timer = some i →
      ReachableRun (fire_sequence_timer s).1
  | countdown_fires {s : AcState} {i : Nat} :
      ReachableRun s → s.countdown_timer = some i →
      ReachableRun (fire_countdown_timer s).1

/-- States reachable from the initial global values by applying the three
callbacks in any order, with no timer discipline assumed. -/
inductive ReachableCallback : AcState → Prop
  | init : ReachableCallback state0
  | tick {s : AcState} :
      ReachableCallback s → ReachableCallback (send_signals_and_update_text s).1
  | step {s : AcState} :
      ReachableCallback s → ReachableCallback (sequence_step_callback s).1
  | countdown {s : AcState} :
      ReachableCallback s → ReachableCallback (update_countdown s).1

/-- The four interval constants the app ever passes to `furi_timer_start`. -/
def interval_values : List Nat :=
  [one_second_interval, one_minute_interval, one_hour_interval, three_hour_interval]

/-- An optional armed interval is absent or one of the four constants. -/
def interval_ok (t : Option Nat) : Bool :=
  t.all (fun i => interval_values.contains i)

/-- Every armed timer interval is one of the four interval constants. -/
def timers_allowed (s : AcState) : Bool :=
  interval_ok s.signal_timer && interval_ok s.countdown_timer &&
    interval_ok s.sequence_timer

lemma interval_ok_none : interval_ok none = true := rfl

lemma interval_ok_second : interval_ok (some one_second_interval) = true := by decide

lemma interval_ok_minute : interval_ok (some one_minute_interval) = true := by decide

lemma interval_ok_hour : interval_ok (some one_hour_interval) = true := by decide

lemma interval_ok_three_hours : interval_ok (some three_hour_interval) = true := by decide

/-- Branch lemma: the schedule tick taken while the device is believed on
(the ON→OFF tick, src/ac_app.c lines 111-123). -/
lemma tick_on_state (s : AcState) (h : s.ac_is_on = true) :
    send_signals_and_update_text s =
      ({ s with
          ac_is_on := false,
          next_signal_interval := three_hour_interval,
          remaining_time := three_hour_interval,
          signal_timer := some three_hour_interval },
       [send_ir_signal ir_address_1 ir_command_1]) := by
  simp [send_signals_and_update_text, h]

/-- Branch lemma: the schedule tick taken while the device is believed off
(the start of the turn-on sequence, src/ac_app.c lines 124-132). -/
lemma tick_off_state (s : AcState) (h : s.ac_is_on = false) :
    send_signals_and_update_text s =
      ({ s with
          sequence_state := AcSequenceTurnOnStep1,
          sequence_timer := some one_second_interval },
       [send_ir_signal ir_address_1 ir_command_1]) := by
  simp [send_signals_and_update_text, h]

/-- Branch lemma: the sequence callback while idle runs neither branch. -/
lemma step_idle_state (s : AcState) (h : s.sequence_state = AcSequenceIdle) :
    sequence_step_callback s = (s, []) := by
  simp [sequence_step_callback, h]

/-- Branch lemma: the sequence callback at TurnOnStep1
(src/ac_app.c lines 87-90). -/
lemma step_one_state (s : AcState) (h : s.sequence_state = AcSequenceTurnOnStep1) :
    sequence_step_callback s =
      ({ s with
          sequence_state := AcSequenceTurnOnStep2,
          sequence_timer := some one_second_interval },
       [send_ir_signal ir_address_1 ir_command_2]) := by
  simp [sequence_step_callback, h]

/-- Branch lemma: the sequence callback at TurnOnStep2
(src/ac_app.c lines 91-104). -/
lemma step_two_state (s : AcState) (h : s.sequence_state = AcSequenceTurnOnStep2) :
    sequence_step_callback s =
      ({ s with
          sequence_state := AcSequenceIdle,
          ac_is_on := true,
          next_signal_interval := one_hour_interval,
          remaining_time := one_hour_interval,
          signal_timer := some one_hour_interval },
       [send_ir_signal ir_address_1 ir_command_2]) := by
  simp [sequence_step_callback, h]

/-- Branch lemma: the countdown callback as a structure update. -/
lemma countdown_state (s : AcState) :
    update_countdown s =
      ({ s with
          remaining_time :=
            if s.remaining_time ≥ one_minute_interval then
              s.remaining_time - one_minute_interval
            else 0,
          countdown_timer := some one_minute_interval },
       []) := rfl

/-- Helper invariant over real executions: the device is believed on only
while the sequencer is idle; the schedule timer is unarmed while the
sequencer is mid-sequence; every armed timer holds one of the four
interval constants. -/
lemma reachable_run_inv (s : AcState) (h : ReachableRun s) :
    (s.ac_is_on = true → s.sequence_state = AcSequenceIdle) ∧
    (s.sequence_state ≠ AcSequenceIdle → s.signal_timer = none) ∧
    timers_allowed s = true := by
  induction h with
  | start =>
      refine ⟨?_, ?_, ?_⟩ <;> decide
  | signal_fires hr ht ih =>
      rename_i s i
      obtain ⟨i1, i2, i3⟩ := ih
      simp only [timers_allowed, Bool.and_eq_true] at i3
      obtain ⟨⟨a1, a2⟩, a3⟩ := i3
      by_cases hOn : s.ac_is_on = true
      · rw [fire_signal_timer,
          tick_on_state { s with signal_timer := none } hOn]
        refine ⟨?_, ?_, ?_⟩
        · intro hc
          exact absurd hc (by simp)
        · intro hne
          exact absurd (i1 hOn) hne
        · simp only [timers_allowed, Bool.and_eq_true]
          exact ⟨⟨interval_ok_three_hours, a2⟩, a3⟩
      · have hOff : s.ac_is_on = false := by
          cases hb : s.ac_is_on
          · rfl
          · exact absurd hb hOn
        rw [fire_signal_timer,
          tick_off_state { s with signal_timer := none } hOff]
        refine ⟨?_, ?_, ?_⟩
        · intro hc
          exact absurd hc (by simpa using hOn)
        · intro _
          rfl
        · simp only [timers_allowed, Bool.and_eq_true]
          exact ⟨⟨interval_ok_none, a2⟩, interval_ok_second⟩
  | sequence_fires hr ht ih =>
      rename_i s i
      obtain ⟨i1, i2, i3⟩ := ih
      simp only [timers_allowed, Bool.and_eq_true] at i3
      obtain ⟨⟨a1, a2⟩, a3⟩ := i3
      cases hseq : s.sequence_state with
      | AcSequenceIdle =>
          rw [fire_sequence_timer,
            step_idle_state { s with sequence_timer := none } hseq]
          refine ⟨fun hOn => i1 hOn, fun hne => absurd hseq hne, ?_⟩
          simp only [timers_allowed, Bool.and_eq_true]
          exact ⟨⟨a1, a2⟩, interval_ok_none⟩
      | AcSequenceTurnOnStep1 =>
          have hsig : s.signal_timer = none := by
            apply i2
            rw [hseq]
            intro hc
            exact AcSequenceState.noConfusion hc
          have hsig2 : interval_ok s.signal_timer = true := by
            rw [hsig]
            exact interval_ok_none
          rw [fire_sequence_timer,
            step_one_state { s with sequence_timer := none } hseq]
          refine ⟨?_, ?_, ?_⟩
          · intro hOn
            have hid := i1 hOn
            rw [hseq] at hid
            exact AcSequenceState.noConfusion hid
          · intro _
            exact hsig
          · simp only [timers_allowed, Bool.and_eq_true]
            exact ⟨⟨hsig2, a2⟩, interval_ok_second⟩
      | AcSequenceTurnOnStep2 =>
          rw [fire_sequence_timer,
            step_two_state { s with sequence_timer := none } hseq]
          refine ⟨?_, ?_, ?_⟩
          · intro _
            rfl
          · intro hc
            exact absurd rfl hc
          · simp only [timers_allowed, Bool.and_eq_true]
            exact ⟨⟨interval_ok_hour, a2⟩, interval_ok_none⟩
  | countdown_fires hr ht ih =>
      rename_i s i
      obtain ⟨i1, i2, i3⟩ := ih
      simp only [timers_allowed, Bool.and_eq_true] at i3
      obtain ⟨⟨a1, a2⟩, a3⟩ := i3
      rw [fire_countdown_timer, countdown_state]
      refine ⟨fun hOn => i1 hOn, fun hne => i2 hne, ?_⟩
      simp only [timers_allowed, Bool.and_eq_true]
      exact ⟨⟨a1, interval_ok_minute⟩, a3⟩

/-- C1: after every ON→OFF tick, the schedule interval and the remaining
time are both set to exactly 10 800 000 ms and the schedule timer is
re-armed for that interval; after every completed OFF→ON turn-on sequence
(the TurnOnStep2 firing), both are set to exactly 3 600 000 ms and the
schedule timer is re-armed for that interval. -/
theorem reschedule_after_transition (s t : AcState)
    (hs : s.ac_is_on = true) (ht : t.sequence_state = AcSequenceTurnOnStep2) :
    ((send_signals_and_update_text s).1.next_signal_interval = 10800000 ∧
     (send_signals_and_update_text s).1.remaining_time = 10800000 ∧
     (send_signals_and_update_text s).1.signal_timer = some 10800000) ∧
    ((sequence_step_callback t).1.next_signal_interval = 3600000 ∧
     (sequence_step_callback t).1.remaining_time = 3600000 ∧
     (sequence_step_callback t).1.signal_timer = some 3600000) := by
  rw [tick_on_state s hs, step_two_state t ht]
  exact ⟨⟨rfl, rfl, rfl⟩, ⟨rfl, rfl, rfl⟩⟩

/-- Witness for C1 at concrete states: the device believed on, and the
sequencer one step from completion. -/
theorem reschedule_after_transition_witness :
    ({ state0 with ac_is_on := true } : AcState).ac_is_on = true ∧
    ({ state0 with sequence_state := AcSequenceTurnOnStep2 } : AcState).sequence_state
        = AcSequenceTurnOnStep2 ∧
    (send_signals_and_update_text { state0 with ac_is_on := true }).1.remaining_time
        = 10800000 ∧
    (sequence_step_callback
        { state0 with sequence_state := AcSequenceTurnOnStep2 }).1.remaining_time
        = 3600000 :=
  ⟨rfl, rfl,
   (reschedule_after_transition { state0 with ac_is_on := true }
      { state0 with sequence_state := AcSequenceTurnOnStep2 } rfl rfl).1.2.1,
   (reschedule_after_transition { state0 with ac_is_on := true }
      { state0 with sequence_state := AcSequenceTurnOnStep2 } rfl rfl).2.2.1⟩

/-- C5: a countdown tick sets RemainingTime to RemainingTime − 60 000 when
at least one minute remains and to 0 otherwise; equivalently it is the
zero-clamped subtraction over the integers, so the counter never wraps
below zero and never increases. -/
theorem countdown_clamped_at_zero (s : AcState) :
    (update_countdown s).1.remaining_time =
      (if s.remaining_time ≥ 60000 then s.remaining_time - 60000 else 0) ∧
    ((update_countdown s).1.remaining_time : Int) =
      max 0 ((s.remaining_time : Int) - 60000) ∧
    (update_countdown s).1.remaining_time ≤ s.remaining_time := by
  rw [countdown_state]
  have hm : one_minute_interval = 60000 := rfl
  refine ⟨rfl, ?_, ?_⟩
  · show ((if s.remaining_time ≥ one_minute_interval then
        s.remaining_time - one_minute_interval else 0 : Nat) : Int) =
      max 0 ((s.remaining_time : Int) - 60000)
    rw [hm]
    by_cases h : s.remaining_time ≥ 60000
    · rw [if_pos h, max_eq_right (by omega)]
      omega
    · rw [if_neg h, max_eq_left (by omega)]
      rfl
  · show (if s.remaining_time ≥ one_minute_interval then
        s.remaining_time - one_minute_interval else 0) ≤ s.remaining_time
    rw [hm]
    by_cases h : s.remaining_time ≥ 60000
    · rw [if_pos h]
      omega
    · rw [if_neg h]
      exact Nat.zero_le _

/-- C6: a schedule tick taken while the device is believed off leaves the
device state, the schedule interval, the remaining time and the other two
timers unchanged; it only transmits the power code, enters TurnOnStep1
and arms the one-second sequence timer. -/
theorem tick_while_off_frame (s : AcState) (h : s.ac_is_on = false) :
    (send_signals_and_update_text s).1.ac_is_on = s.ac_is_on ∧
    (send_signals_and_update_text s).1.next_signal_interval = s.next_signal_interval ∧
    (send_signals_and_update_text s).1.remaining_time = s.remaining_time ∧
    (send_signals_and_update_text s).1.signal_timer = s.signal_timer ∧
    (send_signals_and_update_text s).1.countdown_timer = s.countdown_timer ∧
    (send_signals_and_update_text s).2 = [send_ir_signal ir_address_1 ir_command_1] ∧
    (send_signals_and_update_text s).1.sequence_state = AcSequenceTurnOnStep1 ∧
    (send_signals_and_update_text s).1.sequence_timer = some one_second_interval := by
  rw [tick_off_state s h]
  exact ⟨rfl, rfl, rfl, rfl, rfl, rfl, rfl, rfl⟩

/-- Witness for C6 at the initial global state (device believed off). -/
theorem tick_while_off_frame_witness :
    state0.ac_is_on = false ∧
    (send_signals_and_update_text state0).1.remaining_time = state0.remaining_time ∧
    (send_signals_and_update_text state0).1.sequence_state = AcSequenceTurnOnStep1 :=
  ⟨rfl, (tick_while_off_frame state0 rfl).2.2.1, (tick_while_off_frame state0 rfl).2.2.2.2.2.2.1⟩

/-- C9: a firing of the sequence-step callback while the sequencer is idle
transmits nothing and leaves the whole state unchanged. -/
theorem sequence_step_idle_noop (s : AcState)
    (h : s.sequence_state = AcSequenceIdle) :
    (sequence_step_callback s).1 = s ∧ (sequence_step_callback s).2 = [] := by
  rw [step_idle_state s h]
  exact ⟨rfl, rfl⟩

/-- Witness for C9 at the initial global state (sequencer idle). -/
theorem sequence_step_idle_noop_witness :
    state0.sequence_state = AcSequenceIdle ∧
    (sequence_step_callback state0).1 = state0 ∧
    (sequence_step_callback state0).2 = [] :=
  ⟨rfl, sequence_step_idle_noop state0 rfl⟩

/-- C2: activating the turn-on sequence (a schedule tick while the device
is believed off) emits exactly three infrared transmissions, in order
power code then mode code then mode code, with the one-second sequence
timer armed between consecutive steps, and a further firing of the
sequencer after the third transmission emits nothing and changes
nothing. -/
theorem turn_on_three_signals (s s1 s2 s3 : AcState)
    (h : s.ac_is_on = false)
    (h1 : s1 = (send_signals_and_update_text s).1)
    (h2 : s2 = (sequence_step_callback s1).1)
    (h3 : s3 = (sequence_step_callback s2).1) :
    (send_signals_and_update_text s).2 ++ (sequence_step_callback s1).2
        ++ (sequence_step_callback s2).2
      = [send_ir_signal ir_address_1 ir_command_1,
         send_ir_signal ir_address_1 ir_command_2,
         send_ir_signal ir_address_1 ir_command_2] ∧
    s1.sequence_timer = some one_second_interval ∧
    s2.sequence_timer = some one_second_interval ∧
    s3.sequence_state = AcSequenceIdle ∧
    sequence_step_callback s3 = (s3, []) := by
  have e1 : s1.sequence_state = AcSequenceTurnOnStep1 := by
    rw [h1, tick_off_state s h]
  have e2 : s2.sequence_state = AcSequenceTurnOnStep2 := by
    rw [h2, step_one_state s1 e1]
  have e3 : s3.sequence_state = AcSequenceIdle := by
    rw [h3, step_two_state s2 e2]
  refine ⟨?_, ?_, ?_, e3, step_idle_state s3 e3⟩
  · rw [tick_off_state s h, step_one_state s1 e1, step_two_state s2 e2]
    rfl
  · rw [h1, tick_off_state s h]
  · rw [h2, step_one_state s1 e1]

/-- Witness for C2: the startup activation from the initial global state
produces the power-mode-mode trace. -/
theorem turn_on_three_signals_witness :
    state0.ac_is_on = false ∧
    (send_signals_and_update_text state0).2
        ++ (sequence_step_callback (send_signals_and_update_text state0).1).2
        ++ (sequence_step_callback
              (sequence_step_callback (send_signals_and_update_text state0).1).1).2
      = [send_ir_signal ir_address_1 ir_command_1,
         send_ir_signal ir_address_1 ir_command_2,
         send_ir_signal ir_address_1 ir_command_2] :=
  ⟨rfl, (turn_on_three_signals state0 _ _ _ rfl rfl rfl rfl).1⟩

/-- C7: the rendered countdown line is "Sending signal soon..." when the
remaining time is 0, "Next signal in 1 min." when it is exactly 60 000 ms,
and "Next signal in N mins." when it is N * 60000 ms for N ≥ 2. -/
theorem render_countdown_text (s0 s1 s2 : AcState) (N : Nat)
    (h0 : s0.remaining_time = 0) (h1 : s1.remaining_time = 60000)
    (hN : 2 ≤ N) (h2 : s2.remaining_time = N * 60000) :
    (ac_app_render_callback s0).2 = "Sending signal soon..." ∧
    (ac_app_render_callback s1).2 = "Next signal in 1 min." ∧
    (ac_app_render_callback s2).2 = "Next signal in " ++ toString N ++ " mins." := by
  refine ⟨?_, ?_, ?_⟩
  · show countdown_text s0.remaining_time = _
    rw [h0]
    rfl
  · show countdown_text s1.remaining_time = _
    rw [h1]
    rfl
  · show countdown_text s2.remaining_time = _
    rw [h2]
    have hdiv : N * 60000 / 60000 = N := by omega
    simp only [countdown_text, one_minute_interval]
    rw [hdiv, if_neg (by omega), if_neg (by omega)]

/-- Witness for C7 at remaining times 0 ms, 60 000 ms and 180 000 ms. -/
theorem render_countdown_text_witness :
    (ac_app_render_callback { state0 with remaining_time := 0 }).2
        = "Sending signal soon..." ∧
    (ac_app_render_callback { state0 with remaining_time := 60000 }).2
        = "Next signal in 1 min." ∧
    (ac_app_render_callback { state0 with remaining_time := 180000 }).2
        = "Next signal in " ++ toString 3 ++ " mins." :=
  render_countdown_text { state0 with remaining_time := 0 }
    { state0 with remaining_time := 60000 }
    { state0 with remaining_time := 180000 } 3 rfl rfl (by omega) rfl

/-- C3: in every reachable execution the device state only ever flips
ON→OFF (at a schedule tick) or OFF→ON (exactly at the sequencer step that
returns to idle after the last transmission of the turn-on handshake);
the countdown callback never changes it, the schedule tick always leaves
it OFF, and the sequencer flips it to ON only at the TurnOnStep2→Idle
step, so it reflects the last completed transmission. -/
theorem device_state_flips_only (s : AcState) (h : ReachableRun s) :
    (fire_countdown_timer s).1.ac_is_on = s.ac_is_on ∧
    (fire_signal_timer s).1.ac_is_on = false ∧
    ((fire_sequence_timer s).1.ac_is_on ≠ s.ac_is_on →
      s.ac_is_on = false ∧ (fire_sequence_timer s).1.ac_is_on = true ∧
      s.sequence_state = AcSequenceTurnOnStep2 ∧
      (fire_sequence_timer s).1.sequence_state = AcSequenceIdle) := by
  obtain ⟨i1, -, -⟩ := reachable_run_inv s h
  refine ⟨?_, ?_, ?_⟩
  · rw [fire_countdown_timer, countdown_state]
  · by_cases hOn : s.ac_is_on = true
    · rw [fire_signal_timer, tick_on_state { s with signal_timer := none } hOn]
    · have hOff : s.ac_is_on = false := by
        cases hb : s.ac_is_on
        · rfl
        · exact absurd hb hOn
      rw [fire_signal_timer, tick_off_state { s with signal_timer := none } hOff]
      exact hOff
  · cases hseq : s.sequence_state with
    | AcSequenceIdle =>
        rw [fire_sequence_timer, step_idle_state { s with sequence_timer := none } hseq]
        intro hc
        exact absurd rfl hc
    | AcSequenceTurnOnStep1 =>
        rw [fire_sequence_timer, step_one_state { s with sequence_timer := none } hseq]
        intro hc
        exact absurd rfl hc
    | AcSequenceTurnOnStep2 =>
        rw [fire_sequence_timer, step_two_state { s with sequence_timer := none } hseq]
        intro hc
        have hOff : s.ac_is_on = false := by
          cases hb : s.ac_is_on
          · rfl
          · rw [i1 hb] at hseq
            exact AcSequenceState.noConfusion hseq
        exact ⟨hOff, rfl, rfl, rfl⟩

/-- Witness for C3 at the post-startup state. -/
theorem device_state_flips_only_witness :
    (fire_countdown_timer ac_app_start).1.ac_is_on = ac_app_start.ac_is_on ∧
    (fire_signal_timer ac_app_start).1.ac_is_on = false :=
  ⟨(device_state_flips_only ac_app_start ReachableRun.start).1,
   (device_state_flips_only ac_app_start ReachableRun.start).2.1⟩

/-- C4 counterexample: invoking the schedule tick (the DeviceState==OFF
branch, the sequencer start) while the sequencer is at TurnOnStep1 is not
rejected or ignored: it transmits the power code and changes the state
(it re-arms the sequence timer). -/
theorem start_while_active_not_ignored :
    ¬ ((send_signals_and_update_text
          { state0 with sequence_state := AcSequenceTurnOnStep1 }).2 = [] ∧
       (send_signals_and_update_text
          { state0 with sequence_state := AcSequenceTurnOnStep1 }).1
         = { state0 with sequence_state := AcSequenceTurnOnStep1 }) := by
  decide

/-- C4 amended: the code has no re-entrancy guard, but a second start
cannot occur in a real execution: whenever the sequencer is not idle, the
schedule timer is unarmed, so no schedule tick can fire until the
sequence completes. -/
theorem start_while_active_unreachable (s : AcState) (h : ReachableRun s)
    (hseq : s.sequence_state ≠ AcSequenceIdle) :
    s.signal_timer = none :=
  (reachable_run_inv s h).2.1 hseq

/-- Witness for the amended C4 at the post-startup state, where the
sequencer is at TurnOnStep1. -/
theorem start_while_active_unreachable_witness :
    ac_app_start.sequence_state ≠ AcSequenceIdle ∧ ac_app_start.signal_timer = none :=
  ⟨by decide,
   start_while_active_unreachable ac_app_start ReachableRun.start (by decide)⟩

/-- Trace of the schedule tick: both branches transmit exactly the power
code. -/
lemma tick_trace (s : AcState) :
    (send_signals_and_update_text s).2 = [send_ir_signal ir_address_1 ir_command_1] := by
  by_cases hOn : s.ac_is_on = true
  · rw [tick_on_state s hOn]
  · have hOff : s.ac_is_on = false := by
      cases hb : s.ac_is_on
      · rfl
      · exact absurd hb hOn
    rw [tick_off_state s hOff]

/-- Trace of the sequence callback: nothing, or exactly the mode code. -/
lemma step_trace (s : AcState) :
    (sequence_step_callback s).2 = [] ∨
    (sequence_step_callback s).2 = [send_ir_signal ir_address_1 ir_command_2] := by
  cases hseq : s.sequence_state with
  | AcSequenceIdle =>
      left
      rw [step_idle_state s hseq]
  | AcSequenceTurnOnStep1 =>
      right
      rw [step_one_state s hseq]
  | AcSequenceTurnOnStep2 =>
      right
      rw [step_two_state s hseq]

/-- C8: every infrared message built by any of the three callbacks uses
the extended-NEC protocol with address 0x00006F98 and command 0x0000E619
or 0x0000F708; the four interval constants are bit-exact; and in every
reachable execution every armed timer interval is one of those four
constants. -/
theorem fixed_constants_preserved :
    (one_second_interval = 1000 ∧ one_minute_interval = 60000 ∧
     one_hour_interval = 3600000 ∧ three_hour_interval = 10800000) ∧
    (∀ s : AcState,
      ∀ m ∈ (send_signals_and_update_text s).2 ++ (sequence_step_callback s).2
          ++ (update_countdown s).2,
        m.protocol = InfraredProtocol.NECext ∧ m.address = 0x00006F98 ∧
        (m.command = 0x0000E619 ∨ m.command = 0x0000F708)) ∧
    (∀ s : AcState, ReachableRun s → timers_allowed s = true) := by
  refine ⟨⟨rfl, rfl, rfl, rfl⟩, ?_, fun s h => (reachable_run_inv s h).2.2⟩
  intro s m hm
  rcases List.mem_append.mp hm with hm12 | hm3
  · rcases List.mem_append.mp hm12 with hm1 | hm2
    · rw [tick_trace s] at hm1
      rcases List.mem_singleton.mp hm1 with rfl
      exact ⟨rfl, rfl, Or.inl rfl⟩
    · rcases step_trace s with he | he
      · rw [he] at hm2
        exact absurd hm2 (List.not_mem_nil m)
      · rw [he] at hm2
        rcases List.mem_singleton.mp hm2 with rfl
        exact ⟨rfl, rfl, Or.inr rfl⟩
  · rw [countdown_state] at hm3
    exact absurd hm3 (List.not_mem_nil m)

/-- Witness for C8 at the post-startup state. -/
theorem fixed_constants_preserved_witness :
    timers_allowed ac_app_start = true :=
  fixed_constants_preserved.2.2 ac_app_start ReachableRun.start

/-- C10: in every state reachable from the initial globals (device off,
remaining time and interval both one hour) by any sequence of the three
callbacks, the remaining time never exceeds the schedule interval. -/
theorem remaining_le_interval (s : AcState) (h : ReachableCallback s) :
    s.remaining_time ≤ s.next_signal_interval := by
  induction h with
  | init => exact le_refl _
  | tick hr ih =>
      rename_i t
      by_cases hOn : t.ac_is_on = true
      · rw [tick_on_state t hOn]
      · have hOff : t.ac_is_on = false := by
          cases hb : t.ac_is_on
          · rfl
          · exact absurd hb hOn
        rw [tick_off_state t hOff]
        exact ih
  | step hr ih =>
      rename_i t
      cases hseq : t.sequence_state with
      | AcSequenceIdle =>
          rw [step_idle_state t hseq]
          exact ih
      | AcSequenceTurnOnStep1 =>
          rw [step_one_state t hseq]
          exact ih
      | AcSequenceTurnOnStep2 =>
          rw [step_two_state t hseq]
  | countdown hr ih =>
      rename_i t
      rw [countdown_state]
      show (if t.remaining_time ≥ one_minute_interval then
          t.remaining_time - one_minute_interval else 0) ≤ t.next_signal_interval
      by_cases hc : t.remaining_time ≥ one_minute_interval
      · rw [if_pos hc]
        exact le_trans (Nat.sub_le _ _) ih
      · rw [if_neg hc]
        exact Nat.zero_le _

/-- Witness for C10 at the initial global state. -/
theorem remaining_le_interval_witness :
    state0.remaining_time ≤ state0.next_signal_interval :=
  remaining_le_interval state0 ReachableCallback.init

end AcApp
